import Mathlib

/-!
Verification of the thermal optimizer scripts: a shallow embedding over the
reals of the pure model functions of `Aday_Enclosure_Point_Source_Optimization.py`
and `Aday_Heat_Sink_Optimizer.py`, together with theorems settling the spec's
claims about them.  Floating-point arithmetic is modelled by exact real
arithmetic; `np.sqrt`, `np.pi`, `np.tanh` and the float power `**` become
`Real.sqrt`, `Real.pi`, `Real.tanh` and `Real.rpow`.
-/

noncomputable section

namespace Enclosure

/-- Thermal conductivity of the enclosure material (W/m·K); module constant `k`. -/
def k : ℝ := 0.02

/-- Time interval in seconds (1 hour); module constant `time_interval`. -/
def time_interval : ℝ := 3600

/-- Joule heating `Q = I^2 * R * t` as computed on line 34 of the script. -/
def heat_source (current resistance : ℝ) : ℝ :=
  current ^ 2 * resistance * time_interval

/-- `temperature_at_point` from the enclosure script: Euclidean distance to the
source, a 0.01 floor when the distance is exactly zero, Joule heat source, and
the inverse-distance temperature increase added to the environment temperature.
`enclosure_dims`, `wall_thickness` and `flow_rate` are accepted but unused,
exactly as in the source. -/
def temperature_at_point (x y z : ℝ) (enclosure_dims : ℝ × ℝ × ℝ)
    (wall_thickness flow_rate current resistance : ℝ)
    (source_position : ℝ × ℝ × ℝ) (env_temp : ℝ) : ℝ :=
  let distance0 := Real.sqrt ((x - source_position.1) ^ 2 +
    (y - source_position.2.1) ^ 2 + (z - source_position.2.2) ^ 2)
  let distance := if distance0 = 0 then 0.01 else distance0
  let temp_increase := heat_source current resistance / (4 * Real.pi * k * distance)
  env_temp + temp_increase

/-- The `i`-th of `n` evenly spaced samples from `lo` to `hi`, as produced by
`np.linspace(lo, hi, n)`: `lo + (hi - lo) * i / (n - 1)`. -/
def linspaceVal (lo hi : ℝ) (n i : ℕ) : ℝ :=
  lo + (hi - lo) * i / ((n : ℝ) - 1)

/-- `calculate_average_temperature` from the enclosure script: sum
`temperature_at_point` over the 10×10×10 grid of `np.linspace` samples along
each enclosure dimension and divide by `10^3`. -/
def calculate_average_temperature (enclosure_dims : ℝ × ℝ × ℝ)
    (wall_thickness flow_rate current resistance : ℝ)
    (source_position : ℝ × ℝ × ℝ) (env_temp : ℝ) : ℝ :=
  let num_points : ℕ := 10
  let total_temp := ∑ i ∈ Finset.range num_points, ∑ j ∈ Finset.range num_points,
    ∑ l ∈ Finset.range num_points,
      temperature_at_point (linspaceVal 0 enclosure_dims.1 num_points i)
        (linspaceVal 0 enclosure_dims.2.1 num_points j)
        (linspaceVal 0 enclosure_dims.2.2 num_points l)
        enclosure_dims wall_thickness flow_rate current resistance
        source_position env_temp
  total_temp / ((num_points : ℝ) ^ 3)

/-- `objective_function` from the enclosure script: unpack the first three
parameters as the enclosure dimensions and the fourth as the wall thickness,
then return the absolute deviation of the average temperature from the target. -/
def objective_function (params : Fin 4 → ℝ)
    (target_temp flow_rate current resistance : ℝ)
    (source_position : ℝ × ℝ × ℝ) (env_temp : ℝ) : ℝ :=
  let enclosure_dims := (params 0, params 1, params 2)
  let wall_thickness := params 3
  let average_temp := calculate_average_temperature enclosure_dims wall_thickness
    flow_rate current resistance source_position env_temp
  |average_temp - target_temp|

end Enclosure

namespace HeatSink

/-- Empirical coefficient A for the thermal conductivity of air. -/
def A : ℝ := 0.024

/-- Empirical coefficient B for the thermal conductivity of air. -/
def B : ℝ := 7.74e-5

/-- Empirical coefficient C for the thermal conductivity of air. -/
def C : ℝ := -1.8e-8

/-- `thermal_conductivity_air` from the heat sink script: `A + B*T + C*T^2`. -/
def thermal_conductivity_air (T : ℝ) : ℝ :=
  A + B * T + C * T ^ 2

/-- `convection_coefficient` from the heat sink script: Reynolds number from the
flow rate, Nusselt number from the empirical correlation `0.023·Re^0.8·Pr^0.3`,
and `h_air = Nu * k_air / fin_height`. -/
def convection_coefficient (flow_rate fin_height air_density ambient_temp : ℝ) : ℝ :=
  let k_air := thermal_conductivity_air ambient_temp
  let nu_air : ℝ := 15.89e-6
  let Pr : ℝ := 0.71
  let Re := (flow_rate / (fin_height * air_density)) / nu_air
  let Nu := 0.023 * Re ^ (0.8 : ℝ) * Pr ^ (0.3 : ℝ)
  Nu * k_air / fin_height

/-- `fin_thermal_resistance` from the heat sink script.  The fin perimeter is
computed and, as in the source, never used; `fin_spacing` is accepted but
unused. -/
def fin_thermal_resistance (fin_height fin_thickness fin_spacing fin_length
    thermal_conductivity h_air : ℝ) : ℝ :=
  let fin_area := 2 * (fin_height * fin_thickness) + 2 * (fin_height * fin_length)
  let fin_perimeter := 2 * (fin_thickness + fin_length)
  let m := Real.sqrt (2 * h_air / (thermal_conductivity * fin_thickness))
  let fin_efficiency := Real.tanh (m * fin_height) / (m * fin_height)
  1 / (h_air * fin_efficiency * fin_area)

/-- The parallel combination on line 60 of the heat sink script:
`R_total = 1 / (num_fins / fin_resistance + 1 / R_base)`. -/
def parallel_R_total (num_fins fin_resistance R_base : ℝ) : ℝ :=
  1 / (num_fins / fin_resistance + 1 / R_base)

/-- `heat_sink_thermal_resistance` from the heat sink script: fin length shrinks
with the fin count, the convective coefficient and single-fin resistance are
computed, the base is a conduction slab, and fins and base combine as parallel
thermal paths. -/
def heat_sink_thermal_resistance (num_fins fin_height fin_thickness fin_spacing
    base_thickness base_length base_width thermal_conductivity flow_rate
    air_density ambient_temp : ℝ) : ℝ :=
  let fin_length := base_length - fin_spacing * (num_fins - 1)
  let h_air := convection_coefficient flow_rate fin_height air_density ambient_temp
  let fin_resistance := fin_thermal_resistance fin_height fin_thickness fin_spacing
    fin_length thermal_conductivity h_air
  let base_area := base_length * base_width
  let R_base := base_thickness / (thermal_conductivity * base_area)
  parallel_R_total num_fins fin_resistance R_base

/-- `calculate_heat_sink_temperature` from the heat sink script:
`ambient_temp + heat_load * R_total`. -/
def calculate_heat_sink_temperature (heat_load ambient_temp num_fins fin_height
    fin_thickness fin_spacing base_thickness base_length base_width
    thermal_conductivity flow_rate air_density : ℝ) : ℝ :=
  let R_total := heat_sink_thermal_resistance num_fins fin_height fin_thickness
    fin_spacing base_thickness base_length base_width thermal_conductivity
    flow_rate air_density ambient_temp
  ambient_temp + heat_load * R_total

/-- `objective_function` from the heat sink script: unpack the seven geometry
parameters, compute the heat sink temperature, and return its absolute
deviation from the target. -/
def objective_function (params : Fin 7 → ℝ)
    (heat_load ambient_temp thermal_conductivity target_temp flow_rate
    air_density : ℝ) : ℝ :=
  let num_fins := params 0
  let fin_height := params 1
  let fin_thickness := params 2
  let fin_spacing := params 3
  let base_thickness := params 4
  let base_length := params 5
  let base_width := params 6
  let heat_sink_temp := calculate_heat_sink_temperature heat_load ambient_temp
    num_fins fin_height fin_thickness fin_spacing base_thickness base_length
    base_width thermal_conductivity flow_rate air_density
  |heat_sink_temp - target_temp|

end HeatSink

/-- The grid average as the spec describes it (§4.3): evaluate the point-source
field at every point of a 10×10×10 evenly spaced grid spanning
[0,length]×[0,width]×[0,height] — 10 samples per axis, inclusive of both
endpoints, so sample `i` along a dimension of size `L` sits at `i·L/9` for
`i = 0, …, 9` — sum, and divide by 1000. -/
def spec_grid_average (enclosure_dims : ℝ × ℝ × ℝ)
    (wall_thickness flow_rate current resistance : ℝ)
    (source_position : ℝ × ℝ × ℝ) (env_temp : ℝ) : ℝ :=
  (∑ i ∈ Finset.range 10, ∑ j ∈ Finset.range 10, ∑ l ∈ Finset.range 10,
    Enclosure.temperature_at_point ((i : ℝ) * enclosure_dims.1 / 9)
      ((j : ℝ) * enclosure_dims.2.1 / 9) ((l : ℝ) * enclosure_dims.2.2 / 9)
      enclosure_dims wall_thickness flow_rate current resistance
      source_position env_temp) / 1000

/-- When the sample point has exactly the source's coordinates, the distance is
`√0 = 0`, the floor branch replaces it by `0.01`, and the result is the floored
point value. -/
lemma temperature_at_point_floor (dims : ℝ × ℝ × ℝ) (wt fr cur res : ℝ)
    (sx sy sz env : ℝ) :
    Enclosure.temperature_at_point sx sy sz dims wt fr cur res (sx, sy, sz) env =
      env + Enclosure.heat_source cur res / (4 * Real.pi * Enclosure.k * 0.01) := by
  simp [Enclosure.temperature_at_point]

/-- Every `np.linspace(0, L, 10)` sample of the enclosure grid sits at
`i·L/9`. -/
lemma linspaceVal_zero_left (L : ℝ) (i : ℕ) :
    Enclosure.linspaceVal 0 L 10 i = i * L / 9 := by
  unfold Enclosure.linspaceVal
  push_cast
  ring

end


/-- C1: when the sample point (x,y,z) equals the source position the distance
evaluates to zero, the floor branch substitutes 0.01, and `temperature_at_point`
returns `env_temp + heat_source / (4π · k · 0.01)` with
`heat_source = current² · resistance · 3600` and `k = 0.02`; the division is
never by zero. -/
theorem temperature_at_source_point_floored (dims : ℝ × ℝ × ℝ)
    (wt fr cur res : ℝ) (p : ℝ × ℝ × ℝ) (env : ℝ) :
    Enclosure.temperature_at_point p.1 p.2.1 p.2.2 dims wt fr cur res p env =
      env + cur ^ 2 * res * 3600 / (4 * Real.pi * 0.02 * 0.01) := by
  have h := temperature_at_point_floor dims wt fr cur res p.1 p.2.1 p.2.2 env
  rw [show (p.1, p.2.1, p.2.2) = p from rfl] at h
  rw [h]
  norm_num [Enclosure.heat_source, Enclosure.time_interval, Enclosure.k]

/-- C2: `calculate_average_temperature` is exactly the spec's grid average: the
sum of `temperature_at_point` over the 10×10×10 evenly spaced grid over
[0,length]×[0,width]×[0,height] (10 samples per axis, both endpoints included)
divided by 1000. -/
theorem calculate_average_temperature_matches_spec_grid (dims : ℝ × ℝ × ℝ)
    (wt fr cur res : ℝ) (src : ℝ × ℝ × ℝ) (env : ℝ) :
    Enclosure.calculate_average_temperature dims wt fr cur res src env =
      spec_grid_average dims wt fr cur res src env := by
  simp only [Enclosure.calculate_average_temperature, spec_grid_average,
    linspaceVal_zero_left]
  norm_num

/-- C3 counterexample: at the script's example values (current = 40 A,
resistance = 1.68e-8 Ω) the Joule heat source is 0.096768 J, which is three
orders of magnitude away from 96.77 J — the claimed example value is not even
approximately attained. -/
theorem heat_source_example_not_96_77 :
    Enclosure.heat_source 40 (1.68e-8) = 0.096768 ∧
      96 < |Enclosure.heat_source 40 (1.68e-8) - 96.77| := by
  have hv : Enclosure.heat_source 40 (1.68e-8) = 0.096768 := by
    norm_num [Enclosure.heat_source, Enclosure.time_interval]
  refine ⟨hv, ?_⟩
  rw [hv, abs_sub_comm, abs_of_pos (by norm_num)]
  norm_num

/-- C3 (amended): the heat source is `current² · resistance · 3600` exactly,
and at current = 40, resistance = 1.68e-8 it equals 0.096768 J, i.e. about
96.77 millijoules (not joules). -/
theorem heat_source_formula_and_example (cur res : ℝ) :
    Enclosure.heat_source cur res = cur ^ 2 * res * 3600 ∧
      Enclosure.heat_source 40 (1.68e-8) = 0.096768 := by
  constructor <;> norm_num [Enclosure.heat_source, Enclosure.time_interval]

/-- C4 counterexample: with zero current the heat source is zero, so the
temperature increase is zero at every distance; moving the sample point from
distance 1 to distance 2 from the source does not strictly decrease the
computed temperature. -/
theorem temperature_not_strictly_decreasing_zero_current :
    ¬ (Enclosure.temperature_at_point 2 0 0 (0, 0, 0) 0 0 0 1 (0, 0, 0) 298 <
        Enclosure.temperature_at_point 1 0 0 (0, 0, 0) 0 0 0 1 (0, 0, 0) 298) := by
  have h1 : Enclosure.temperature_at_point 2 0 0 (0, 0, 0) 0 0 0 1 (0, 0, 0) 298
      = 298 := by
    simp [Enclosure.temperature_at_point, Enclosure.heat_source]
  have h2 : Enclosure.temperature_at_point 1 0 0 (0, 0, 0) 0 0 0 1 (0, 0, 0) 298
      = 298 := by
    simp [Enclosure.temperature_at_point, Enclosure.heat_source]
  rw [h1, h2]
  exact lt_irrefl 298

/-- C4 (amended): with a strictly positive heat source (`current² · resistance
· 3600 > 0`), a sample point strictly farther from the source (both distances
positive) yields a strictly smaller computed temperature — equivalently a
strictly smaller temperature increase, since the same `env_temp` is added to
both. -/
theorem temperature_strictly_decreasing_in_distance
    (x1 y1 z1 x2 y2 z2 : ℝ) (dims : ℝ × ℝ × ℝ) (wt fr cur res : ℝ)
    (src : ℝ × ℝ × ℝ) (env : ℝ)
    (hQ : 0 < Enclosure.heat_source cur res)
    (hd1 : 0 < Real.sqrt ((x1 - src.1) ^ 2 + (y1 - src.2.1) ^ 2 +
      (z1 - src.2.2) ^ 2))
    (hlt : Real.sqrt ((x1 - src.1) ^ 2 + (y1 - src.2.1) ^ 2 + (z1 - src.2.2) ^ 2)
      < Real.sqrt ((x2 - src.1) ^ 2 + (y2 - src.2.1) ^ 2 + (z2 - src.2.2) ^ 2)) :
    Enclosure.temperature_at_point x2 y2 z2 dims wt fr cur res src env <
      Enclosure.temperature_at_point x1 y1 z1 dims wt fr cur res src env := by
  have hd2 : 0 < Real.sqrt ((x2 - src.1) ^ 2 + (y2 - src.2.1) ^ 2 +
      (z2 - src.2.2) ^ 2) := hd1.trans hlt
  simp only [Enclosure.temperature_at_point]
  rw [if_neg (ne_of_gt hd1), if_neg (ne_of_gt hd2)]
  apply add_lt_add_left
  have hc : (0 : ℝ) < 4 * Real.pi * Enclosure.k := by
    have hpi := Real.pi_pos
    norm_num [Enclosure.k]
    positivity
  exact div_lt_div_of_pos_left hQ (mul_pos hc hd1) (mul_lt_mul_of_pos_left hlt hc)

/-- C4 witness: concrete instance of the amended monotonicity theorem with
current = 1, resistance = 1, source at the origin, and sample points at
distances 1 and 2. -/
theorem temperature_strictly_decreasing_in_distance_witness :
    Enclosure.temperature_at_point 2 0 0 (0, 0, 0) 0 0 1 1 (0, 0, 0) 0 <
      Enclosure.temperature_at_point 1 0 0 (0, 0, 0) 0 0 1 1 (0, 0, 0) 0 := by
  have h4 : Real.sqrt (((2 : ℝ) - 0) ^ 2 + ((0 : ℝ) - 0) ^ 2 + ((0 : ℝ) - 0) ^ 2)
      = 2 := by
    rw [show ((2 : ℝ) - 0) ^ 2 + ((0 : ℝ) - 0) ^ 2 + ((0 : ℝ) - 0) ^ 2
      = 2 ^ 2 by norm_num]
    exact Real.sqrt_sq (by norm_num)
  have h1 : Real.sqrt (((1 : ℝ) - 0) ^ 2 + ((0 : ℝ) - 0) ^ 2 + ((0 : ℝ) - 0) ^ 2)
      = 1 := by
    rw [show ((1 : ℝ) - 0) ^ 2 + ((0 : ℝ) - 0) ^ 2 + ((0 : ℝ) - 0) ^ 2
      = 1 by norm_num]
    exact Real.sqrt_one
  refine temperature_strictly_decreasing_in_distance 1 0 0 2 0 0 (0, 0, 0) 0 0 1 1
    (0, 0, 0) 0 ?_ ?_ ?_
  · norm_num [Enclosure.heat_source, Enclosure.time_interval]
  · norm_num [Real.sqrt_pos]
  · simp only [show ((0, 0, 0) : ℝ × ℝ × ℝ).1 = (0 : ℝ) from rfl,
      show ((0, 0, 0) : ℝ × ℝ × ℝ).2.1 = (0 : ℝ) from rfl,
      show ((0, 0, 0) : ℝ × ℝ × ℝ).2.2 = (0 : ℝ) from rfl]
    rw [h1, h4]
    norm_num

/-- C5: `heat_sink_thermal_resistance` computes exactly the parallel combination
`1 / (num_fins / R_fin + 1 / R_base)` of the single-fin resistance and the base
slab resistance, and that combination is strictly decreasing in the number of
fins when `R_fin` and `R_base` are fixed and positive and the fin count is
nonnegative. -/
theorem heat_sink_resistance_parallel_and_decreasing :
    (∀ nf fh ft fs bt bl bw tc fr ad amb : ℝ,
      HeatSink.heat_sink_thermal_resistance nf fh ft fs bt bl bw tc fr ad amb =
        HeatSink.parallel_R_total nf
          (HeatSink.fin_thermal_resistance fh ft fs (bl - fs * (nf - 1)) tc
            (HeatSink.convection_coefficient fr fh ad amb))
          (bt / (tc * (bl * bw)))) ∧
    (∀ n1 n2 Rf Rb : ℝ, 0 ≤ n1 → n1 < n2 → 0 < Rf → 0 < Rb →
      HeatSink.parallel_R_total n2 Rf Rb < HeatSink.parallel_R_total n1 Rf Rb) := by
  constructor
  · intro nf fh ft fs bt bl bw tc fr ad amb
    rfl
  · intro n1 n2 Rf Rb h0 h12 hRf hRb
    unfold HeatSink.parallel_R_total
    have hd1 : 0 < n1 / Rf + 1 / Rb :=
      add_pos_of_nonneg_of_pos (div_nonneg h0 hRf.le) (by positivity)
    have hlt : n1 / Rf + 1 / Rb < n2 / Rf + 1 / Rb := by
      have := div_lt_div_of_pos_right h12 hRf
      linarith
    exact one_div_lt_one_div_of_lt hd1 hlt

/-- C5 witness: going from 0 fins to 1 fin with `R_fin = R_base = 1` strictly
lowers the parallel total resistance. -/
theorem heat_sink_resistance_parallel_and_decreasing_witness :
    HeatSink.parallel_R_total 1 1 1 < HeatSink.parallel_R_total 0 1 1 :=
  heat_sink_resistance_parallel_and_decreasing.2 0 1 1 1 le_rfl one_pos one_pos
    one_pos

/-- C6: with enclosure dimensions (0,0,0) every `np.linspace` grid sample lies
at 0, so with the source at the origin every one of the 1000 samples coincides
with the source, each takes the 0.01 floor branch, and the returned average is
exactly the single floored point value
`env_temp + heat_source / (4π · 0.02 · 0.01)`. -/
theorem average_temperature_degenerate_enclosure (wt fr cur res env : ℝ) :
    (∀ i : ℕ, Enclosure.linspaceVal 0 0 10 i = 0) ∧
    Enclosure.calculate_average_temperature (0, 0, 0) wt fr cur res (0, 0, 0) env =
      env + Enclosure.heat_source cur res / (4 * Real.pi * 0.02 * 0.01) := by
  have hz : ∀ i : ℕ, Enclosure.linspaceVal 0 0 10 i = 0 := by
    intro i
    simp [Enclosure.linspaceVal]
  refine ⟨hz, ?_⟩
  have hpt := temperature_at_point_floor (0, 0, 0) wt fr cur res 0 0 0 env
  simp only [Enclosure.calculate_average_temperature, hz, hpt, Finset.sum_const,
    Finset.card_range, nsmul_eq_mul, Enclosure.k]
  push_cast
  ring

/-- C7: `thermal_conductivity_air` is the quadratic `A + B·T + C·T²` with
A = 0.024, B = 7.74e-5, C = -1.8e-8, in particular for every positive T. -/
theorem thermal_conductivity_air_quadratic (T : ℝ) (hT : 0 < T) :
    HeatSink.thermal_conductivity_air T =
      0.024 + 7.74e-5 * T + (-1.8e-8) * T ^ 2 := by
  unfold HeatSink.thermal_conductivity_air HeatSink.A HeatSink.B HeatSink.C
  ring

/-- C7 witness: the quadratic identity evaluated at T = 300 K. -/
theorem thermal_conductivity_air_quadratic_witness :
    (0 : ℝ) < 300 ∧ HeatSink.thermal_conductivity_air 300 =
      0.024 + 7.74e-5 * 300 + (-1.8e-8) * 300 ^ 2 :=
  ⟨by norm_num, thermal_conductivity_air_quadratic 300 (by norm_num)⟩

/-- C8: `temperature_at_point` and `calculate_average_temperature` are
independent of the `wall_thickness` and `flow_rate` arguments — two runs that
differ only in those arguments return equal temperatures. -/
theorem point_source_ignores_wall_thickness_and_flow_rate
    (x y z : ℝ) (dims : ℝ × ℝ × ℝ) (wt1 fr1 wt2 fr2 cur res : ℝ)
    (src : ℝ × ℝ × ℝ) (env : ℝ) :
    Enclosure.temperature_at_point x y z dims wt1 fr1 cur res src env =
      Enclosure.temperature_at_point x y z dims wt2 fr2 cur res src env ∧
    Enclosure.calculate_average_temperature dims wt1 fr1 cur res src env =
      Enclosure.calculate_average_temperature dims wt2 fr2 cur res src env :=
  ⟨rfl, rfl⟩

/-- C9: both objective functions unpack the candidate parameter vector into the
active model's geometry, invoke the corresponding temperature model, and return
the absolute deviation of the predicted temperature from the target. -/
theorem objective_functions_absolute_deviation
    (p4 : Fin 4 → ℝ) (target1 fr cur res : ℝ) (src : ℝ × ℝ × ℝ) (env : ℝ)
    (p7 : Fin 7 → ℝ) (hl amb tc target2 fr2 ad : ℝ) :
    Enclosure.objective_function p4 target1 fr cur res src env =
      |Enclosure.calculate_average_temperature (p4 0, p4 1, p4 2) (p4 3) fr cur
        res src env - target1| ∧
    HeatSink.objective_function p7 hl amb tc target2 fr2 ad =
      |HeatSink.calculate_heat_sink_temperature hl amb (p7 0) (p7 1) (p7 2)
        (p7 3) (p7 4) (p7 5) (p7 6) tc fr2 ad - target2| :=
  ⟨rfl, rfl⟩

/-- C10: `fin_thermal_resistance` is independent of its `fin_spacing` argument,
and equals the perimeter-free closed form — the computed fin perimeter plays no
role in the result. -/
theorem fin_resistance_independent_of_fin_spacing
    (fh ft fs1 fs2 fl tc h : ℝ) :
    HeatSink.fin_thermal_resistance fh ft fs1 fl tc h =
      HeatSink.fin_thermal_resistance fh ft fs2 fl tc h ∧
    HeatSink.fin_thermal_resistance fh ft fs1 fl tc h =
      1 / (h * (Real.tanh (Real.sqrt (2 * h / (tc * ft)) * fh) /
        (Real.sqrt (2 * h / (tc * ft)) * fh)) * (2 * (fh * ft) + 2 * (fh * fl))) :=
  ⟨rfl, rfl⟩
